import Mathlib

/-!
Shallow embedding of the perfume-label backend (`src/main.py`) and proofs of
the frozen claims about it.

Modelling conventions:
* Python floats are modelled as exact rationals (`ℚ`); the source only
  performs `+ - * / //` and `int(...)` on them.
* Python strings are Lean `String`s.  `str.replace(a, b)` with a single-char
  pattern and empty replacement is modelled as a character filter;
  `str.isdigit` is modelled on the ASCII fragment (`Char.isDigit`); Python
  additionally accepts some non-ASCII digit code points, which none of the
  claims exercise.
* A `None`-valued `Optional[str]` template field behaves identically to `""`
  everywhere the source uses it (truthiness tests and `or`-chains), so
  `TemplateItem` fields are plain `String`s; request-level optional strings
  are `Option String`.
* The ReportLab canvas is modelled by the list of drawing operations emitted,
  with the current fill/stroke colour, font and line width folded into each
  operation (every draw call in the source is immediately preceded by the
  `set*` calls that configure it).
* `c.setFont(f, s)` succeeds exactly when `f` is a registered font name
  (ReportLab's built-in Type-1 families are always registered); the
  `try/except` fallbacks are modelled with that membership test.
-/

namespace Perfume

/-- Python `a or b` for strings: the empty string is falsy. (`main.py` uses
`or`-chains such as `tpl.shopName or req.shopName or ""`.) -/
def pyOr (a b : String) : String := if a = "" then b else a

/-- Python `a or d` where `a` is an `Optional[str]`: `None` and `""` are
falsy. -/
def pyOrD (a : Option String) (d : String) : String :=
  match a with
  | none => d
  | some s => if s = "" then d else s

/-- Python `int(x)` on a float/rational: truncation toward zero. -/
def pyInt (x : ℚ) : ℤ := if 0 ≤ x then ⌊x⌋ else ⌈x⌉

/-- Python float floor division `a // b` (exact-rational model). -/
def floordiv (a b : ℚ) : ℚ := (⌊a / b⌋ : ℤ)

/-- `MM_TO_PT = 2.83465` (module-level constant of `main.py`). -/
def MM_TO_PT : ℚ := 283465 / 100000

/-- `mm_to_pt` from `main.py`. -/
def mm_to_pt (mm : ℚ) : ℚ := mm * MM_TO_PT

/-- ReportLab's A4 page width in points: `210*mm` with `mm = 72/25.4`. -/
def A4_w : ℚ := 210 * (72 / (254 / 10))

/-- ReportLab's A4 page height in points: `297*mm` with `mm = 72/25.4`. -/
def A4_h : ℚ := 297 * (72 / (254 / 10))

/-- `cols = max(1, int((page_w_pt - margin) // label_w_pt))` (line 181). -/
def gridCols (pageW margin labelW : ℚ) : ℤ :=
  max 1 (pyInt (floordiv (pageW - margin) labelW))

/-- `rows = max(1, int((page_h_pt - margin) // label_h_pt))` (line 182). -/
def gridRows (pageH margin labelH : ℚ) : ℤ :=
  max 1 (pyInt (floordiv (pageH - margin) labelH))

/-- `max_labels_per_page = cols * rows` (line 183). -/
def maxLabelsPerPage (pageW pageH margin labelW labelH : ℚ) : ℤ :=
  gridCols pageW margin labelW * gridRows pageH margin labelH

/-- Remove every occurrence of the character `c` (Python
`s.replace(c, "")` for a one-character pattern). -/
def removeChar (c : Char) (s : String) : String :=
  String.mk (s.toList.filter (fun a => a ≠ c))

/-- `v.replace(" ", "").replace(",", "")` — the price cleaning of the
`price_must_be_digits` validator (lines 67). -/
def cleanPrice (v : String) : String := removeChar ',' (removeChar ' ' v)

/-- `v.replace(" ", "").replace("×", "").replace("x", "")` — the multiplier
cleaning of the `multiplier_must_be_digits` validator (line 77). -/
def cleanMultiplier (v : String) : String :=
  removeChar 'x' (removeChar '\u00D7' (removeChar ' ' v))

/-- Python `s.isdigit()` restricted to ASCII digits: true iff `s` is
non-empty and every character is a digit. -/
def pyIsdigit (s : String) : Bool := !s.isEmpty && s.toList.all Char.isDigit

/-- The `price` field validator of `TemplateItem` (lines 62-70): empty is
accepted unchanged; otherwise the cleaned string must be all digits. -/
def price_must_be_digits (v : String) : Except String String :=
  if v = "" then .ok v
  else if pyIsdigit (cleanPrice v) then .ok v
  else .error "price must contain digits only"

/-- The `multiplier` field validator of `TemplateItem` (lines 72-80). -/
def multiplier_must_be_digits (v : String) : Except String String :=
  if v = "" then .ok v
  else if pyIsdigit (cleanMultiplier v) then .ok v
  else .error "multiplier must contain digits only"

/-- `contains_arabic` from `main.py` (lines 246-252): some character lies in
U+0600–U+06FF or U+0750–U+077F. -/
def contains_arabic (s : String) : Bool :=
  s.toList.any (fun ch =>
    decide ('\u0600' ≤ ch ∧ ch ≤ '\u06FF') || decide ('\u0750' ≤ ch ∧ ch ≤ '\u077F'))

/-- `TemplateItem` (pydantic model, lines 55-80); all fields default `""`. -/
structure TemplateItem where
  perfumeName : String := ""
  price : String := ""
  multiplier : String := ""
  shopName : String := ""
  extraInfo : String := ""
deriving DecidableEq, Repr, Inhabited

/-- `FontSettings` (lines 83-91). -/
structure FontSettings where
  perfumeFont : Option String := some "Helvetica-Bold"
  perfumeSize : ℤ := 12
  shopFont : Option String := some "Times-Italic"
  shopSize : ℤ := 10
  priceFont : Option String := some "Helvetica-Bold"
  priceSize : ℤ := 9
  quantityFont : Option String := some "Helvetica"
  quantitySize : ℤ := 9
deriving DecidableEq, Repr, Inhabited

/-- `StyleSettings` (lines 93-97); it declares no field validators. -/
structure StyleSettings where
  theme : Option String := some "gold_black"
  primaryColor : Option String := some "#D4AF37"
  accentColor : Option String := some "#080808"
  borderColor : Option String := none
deriving DecidableEq, Repr, Inhabited

/-- `GenerateRequest` (lines 99-111). `copies` is a pydantic
`Field(1, ge=1, le=35)`; dimensions are millimetres. -/
structure GenerateRequest where
  shopName : Option String := some ""
  copies : ℕ := 1
  labelWidth : ℚ
  labelHeight : ℚ
  borderRadius : ℚ
  fontSettings : FontSettings := {}
  templates : List TemplateItem
  price : Option String := none
  quantity : Option String := none
  perfumeName : Option String := none
  style : StyleSettings := {}
  phone : Option String := none
deriving DecidableEq, Repr

/-- Process environment: which font files were found/registered and whether
`logo.png` exists.  `registered` models
`pdfmetrics.getRegisteredFontNames()` (built-in families included);
`playfair`/`cinzel` model the `PLAYFAIR`/`CINZEL` variables returned by
`try_register` (lines 225-226): the font name on success, `None` otherwise. -/
structure Env where
  logoExists : Bool
  registered : List String
  playfair : Option String := none
  cinzel : Option String := none
deriving DecidableEq, Repr

/-- An RGB colour with components in `[0,1]` (ReportLab convention). -/
structure Rgb where
  r : ℚ
  g : ℚ
  b : ℚ
deriving DecidableEq, Repr

/-- Text alignment of the ReportLab string-drawing primitives. -/
inductive Align where
  | centred
  | left
  | right
deriving DecidableEq, Repr

/-- One drawing operation emitted to the canvas, with the relevant canvas
state (colour, font, line width) folded in. -/
inductive DrawOp where
  | fillRoundRect (x y w h radius : ℚ) (color : Rgb)
  | strokeRoundRect (x y w h radius : ℚ) (color : Rgb) (lineWidth : ℚ)
  | image (x y w h : ℚ)
  | text (font : String) (size : ℚ) (color : Rgb) (x y : ℚ) (s : String) (align : Align)
  | line (x1 y1 x2 y2 : ℚ) (color : Rgb) (lineWidth : ℚ)
deriving DecidableEq, Repr

/-- Python `s.lstrip("#")`: drop every leading `#`. -/
def lstripHash (s : String) : String :=
  String.mk (s.toList.dropWhile (fun c => c = '#'))

/-- Is `c` a hexadecimal digit (as accepted by Python `int(_, 16)`)? -/
def isHexChar (c : Char) : Bool :=
  c.isDigit || decide ('a' ≤ c ∧ c ≤ 'f') || decide ('A' ≤ c ∧ c ≤ 'F')

/-- Numeric value of a hexadecimal digit. -/
def hexVal (c : Char) : ℕ :=
  if c.isDigit then c.toNat - '0'.toNat
  else if decide ('a' ≤ c ∧ c ≤ 'f') then c.toNat - 'a'.toNat + 10
  else c.toNat - 'A'.toNat + 10

/-- Python `int(s, 16)` on the plain-hex fragment produced by slicing a hex
colour string: a non-empty all-hex string parses, anything else raises
`ValueError`.  (Python additionally accepts surrounding whitespace, a sign
and a `0x` prefix; the slices fed to it here never contain those.) -/
def pyIntBase16 (s : String) : Except String ℕ :=
  if s ≠ "" ∧ s.toList.all isHexChar then
    .ok (s.toList.foldl (fun acc c => 16 * acc + hexVal c) 0)
  else .error ("invalid literal for int with base 16: " ++ s)

/-- Python slice `s[i:i+2]`. -/
def sliceHexPair (s : String) (i : ℕ) : String :=
  String.mk ((s.toList.drop i).take 2)

/-- `tuple(int(hex[i:i+2], 16) / 255 for i in (0, 2, 4))` (lines 200, 201,
204): parse three byte slices of a hex string, any failure raising. -/
def hex_to_rgb (hexs : String) : Except String Rgb := do
  let r ← pyIntBase16 (sliceHexPair hexs 0)
  let g ← pyIntBase16 (sliceHexPair hexs 2)
  let b ← pyIntBase16 (sliceHexPair hexs 4)
  pure ⟨(r : ℚ) / 255, (g : ℚ) / 255, (b : ℚ) / 255⟩

/-- The colour-parsing block of `generate_label` (lines 197-210), in source
order: primary, accent, then border (`borderColor or primaryColor or
"#D4AF37"`); the first `ValueError` aborts.  Returns
`(primary_rgb, accent_rgb, border_rgb)`. -/
def parse_colors (style : StyleSettings) : Except String (Rgb × Rgb × Rgb) := do
  let primary_hex := lstripHash (pyOrD style.primaryColor "#D4AF37")
  let accent_hex := lstripHash (pyOrD style.accentColor "#080808")
  let primary_rgb ← hex_to_rgb primary_hex
  let accent_rgb ← hex_to_rgb accent_hex
  let border_hex := lstripHash (pyOrD style.borderColor (pyOrD style.primaryColor "#D4AF37"))
  let border_rgb ← hex_to_rgb border_hex
  pure (primary_rgb, accent_rgb, border_rgb)

/-- Perfume-name font selection (lines 292-301): Arabic text with Amiri
registered wins; otherwise `PLAYFAIR`, then `CINZEL`, then the requested
`fontSettings.perfumeFont` (default `"Helvetica-Bold"`). -/
def name_font (env : Env) (fs : FontSettings) (pname : String) : String :=
  if contains_arabic pname ∧ "Amiri" ∈ env.registered then "Amiri"
  else
    match env.playfair with
    | some p => p
    | none =>
      match env.cinzel with
      | some cn => cn
      | none => pyOrD fs.perfumeFont "Helvetica-Bold"

/-- The `try: c.setFont(f, _) except: c.setFont(fallback, _)` pattern:
use `f` when it is registered, otherwise the hard-coded fallback. -/
def effFont (env : Env) (f fallback : String) : String :=
  if f ∈ env.registered then f else fallback

/-- `shop_text = tpl.shopName or req.shopName or ""` (line 322). -/
def shop_text (tpl : TemplateItem) (reqShopName : Option String) : String :=
  pyOr tpl.shopName (pyOrD reqShopName "")

/-- Shop-name font selection (line 323). -/
def shop_font (env : Env) (fs : FontSettings) (st : String) : String :=
  if contains_arabic st ∧ "Amiri" ∈ env.registered then "Amiri"
  else pyOrD fs.shopFont "Times-Italic"

/-- `price_txt = tpl.price or req.price or ""` (line 339). -/
def price_txt (tpl : TemplateItem) (reqPrice : Option String) : String :=
  pyOr tpl.price (pyOrD reqPrice "")

/-- `mult_txt = tpl.multiplier or "" or req.quantity or ""` (line 340). -/
def mult_txt (tpl : TemplateItem) (reqQuantity : Option String) : String :=
  pyOr (pyOr tpl.multiplier "") (pyOrD reqQuantity "")

/-- Muted beige used for shop/quantity/extra text (lines 328, 360, 373). -/
def beige : Rgb := ⟨86 / 100, 84 / 100, 8 / 10⟩

/-- Colour of the phone line (line 396). -/
def phoneColor : Rgb := ⟨8 / 10, 78 / 100, 7 / 10⟩

/-- The price drawing block (lines 344-351): emitted only when the price
text is non-empty; the drawn string is `"Prix(DA):<price_txt> "` with the
price text verbatim. -/
def price_ops (env : Env) (fs : FontSettings) (gold : Rgb) (cx bottomY : ℚ)
    (ptxt : String) : List DrawOp :=
  if ptxt ≠ "" then
    [DrawOp.text (effFont env (pyOrD fs.priceFont "Helvetica-Bold") "Helvetica-Bold")
      (fs.priceSize : ℚ) gold cx (bottomY + (fs.priceSize : ℚ) * (6 / 10))
      ("Prix(DA):" ++ ptxt ++ " ") Align.centred]
  else []

/-- The quantity drawing block (lines 354-362): emitted only when the
multiplier text is non-empty; the drawn string is `"(×<mult_txt>)"` with
the multiplier text verbatim. -/
def qty_ops (env : Env) (fs : FontSettings) (qx qy : ℚ) (mtxt : String) :
    List DrawOp :=
  if mtxt ≠ "" then
    [DrawOp.text (effFont env (pyOrD fs.quantityFont "Helvetica") "Helvetica")
      (fs.quantitySize : ℚ) beige qx qy ("(×" ++ mtxt ++ ")") Align.left]
  else []

/-- The draw operations of one call to `draw_label(x, y, tpl)`
(lines 255-397), in emission order.  `gold`/`dark` are the `GOLD`/`DARK`
closure variables (primary and accent RGB). -/
def draw_label (env : Env) (req : GenerateRequest) (gold dark : Rgb)
    (label_w_pt label_h_pt radius_pt : ℚ) (x y : ℚ) (tpl : TemplateItem) :
    List DrawOp :=
  let padding : ℚ := 8
  let inner_x := x + 3
  let inner_y := y + 3
  let inner_w := label_w_pt - 6
  let inner_h := label_h_pt - 6
  let fs := req.fontSettings
  -- dark background then stroked border (lines 265-271)
  let bg := DrawOp.fillRoundRect inner_x inner_y inner_w inner_h radius_pt dark
  let border := DrawOp.strokeRoundRect (inner_x + 1) (inner_y + 1)
    (inner_w - 2) (inner_h - 2) radius_pt gold (12 / 10)
  -- logo (lines 273-286); a drawImage failure only prints, so the op is
  -- emitted exactly when the logo file exists
  let logo_area_h := inner_h * (22 / 100)
  let logoOps : List DrawOp :=
    if env.logoExists then
      let max_logo_w := inner_w * (4 / 10)
      let max_logo_h := logo_area_h - 6
      let logo_w := min max_logo_w max_logo_h
      let lx := inner_x + (inner_w - logo_w) / 2
      let ly := inner_y + inner_h - logo_w - padding - 2
      [DrawOp.image lx ly logo_w logo_w]
    else []
  -- perfume name (lines 292-312)
  let pname := pyOr tpl.perfumeName ""
  let name_size : ℚ :=
    if fs.perfumeSize ≠ 0 then (fs.perfumeSize : ℚ)
    else ((max 12 (pyInt (min inner_w inner_h * (12 / 100))) : ℤ) : ℚ)
  let nameFont := effFont env (name_font env fs pname) "Helvetica-Bold"
  let name_y := inner_y + inner_h * (56 / 100)
  let nameOp := DrawOp.text nameFont name_size gold
    (inner_x + inner_w / 2) name_y pname Align.centred
  -- decorative separator (lines 314-319)
  let deco_y := name_y - name_size * (8 / 10)
  let line_w := inner_w * (4 / 10)
  let deco := DrawOp.line (inner_x + (inner_w - line_w) / 2) deco_y
    (inner_x + (inner_w + line_w) / 2) deco_y gold 1
  -- shop name (lines 321-329)
  let st := shop_text tpl req.shopName
  let shopOp := DrawOp.text (effFont env (shop_font env fs st) "Times-Italic")
    (fs.shopSize : ℚ) beige (inner_x + inner_w / 2)
    (deco_y - (fs.shopSize : ℚ) * (12 / 10)) st Align.centred
  -- second separator (lines 331-336) recomputes the same line
  let deco2 := deco
  -- price (lines 339-351)
  let ptxt := price_txt tpl req.price
  let bottom_y := inner_y + padding + 8
  let priceOps := price_ops env fs gold (inner_x + inner_w / 2) bottom_y ptxt
  -- quantity (lines 353-362)
  let mtxt := mult_txt tpl req.quantity
  let qtyOps := qty_ops env fs (inner_x + inner_w / 2 + 30)
    (bottom_y + (fs.priceSize : ℚ) * (6 / 10)) mtxt
  -- extra info (lines 364-374)
  let extra := pyOr tpl.extraInfo ""
  let extraOps : List DrawOp :=
    if extra ≠ "" then
      let efont :=
        if contains_arabic extra ∧ "Amiri" ∈ env.registered then "Amiri"
        else pyOrD fs.shopFont "Times-Italic"
      let extra_size : ℤ := max 7 (pyInt ((fs.shopSize : ℚ) * (85 / 100)))
      [DrawOp.text (effFont env efont "Times-Italic") (extra_size : ℚ) beige
        (inner_x + inner_w / 2)
        (deco_y - (fs.shopSize : ℚ) * (12 / 10) - (extra_size : ℚ) * (11 / 10))
        extra Align.centred]
    else []
  -- phone (lines 380-397): TemplateItem has no phone attribute, so the
  -- source's getattr chain always falls through to req.phone
  let phone := pyOrD req.phone ""
  let phoneOps : List DrawOp :=
    if phone ≠ "" then
      [DrawOp.text (effFont env (pyOrD fs.quantityFont "Helvetica") "Helvetica")
        ((max 7 (fs.quantitySize - 1) : ℤ) : ℚ) phoneColor
        (inner_x + inner_w - padding - 2) (inner_y + 6) phone Align.right]
    else []
  [bg, border] ++ logoOps ++ [nameOp, deco, shopOp, deco2] ++
    priceOps ++ qtyOps ++ extraOps ++ phoneOps

/-- Did a pydantic field validator accept its input (no `ValueError`)? -/
def accepts (e : Except String String) : Bool :=
  match e with
  | .ok _ => true
  | .error _ => false

/-- The strings drawn by a list of canvas operations, in drawing order. -/
def textStrings (ops : List DrawOp) : List String :=
  ops.filterMap (fun op =>
    match op with
    | .text _ _ _ _ _ s _ => some s
    | _ => none)

/-- The `while len(desired) < req.copies` loop of `generate_label`
(lines 186-191): append `templates[idx % len(templates)]` until `copies`
entries have been collected. -/
def desiredLoop (templates : List TemplateItem) (copies : ℕ) (idx : ℕ)
    (acc : List TemplateItem) : List TemplateItem :=
  if acc.length < copies then
    desiredLoop templates copies (idx + 1)
      (acc ++ [templates.getD (idx % templates.length) {}])
  else acc
termination_by copies - acc.length
decreasing_by simp; omega

/-- `desired` as built by `generate_label` (lines 186-191). -/
def desired (templates : List TemplateItem) (copies : ℕ) : List TemplateItem :=
  desiredLoop templates copies 0 []

/-- The inner `for col in range(cols)` loop of the sheet composer
(lines 402-408) for row `r`, entered with `colsLeft` columns remaining at
column index `col` and `count` labels already drawn: emits one
`(row, col, count)` cell per iteration while `count < to_gen`. -/
def innerLoop (to_gen r : ℕ) : ℕ → ℕ → ℕ → List (ℕ × ℕ × ℕ)
  | 0, _, _ => []
  | colsLeft + 1, col, count =>
    if count < to_gen then
      (r, col, count) :: innerLoop to_gen r colsLeft (col + 1) (count + 1)
    else []

/-- The outer `for r in range(rows)` loop of the sheet composer
(lines 400-410), with the `break` once `count >= to_generate`. -/
def sheetLoop (to_gen cols : ℕ) : ℕ → ℕ → ℕ → List (ℕ × ℕ × ℕ)
  | 0, _, _ => []
  | rowsLeft + 1, r, count =>
    let rowCells := innerLoop to_gen r cols 0 count
    let count2 := count + rowCells.length
    if to_gen ≤ count2 then rowCells
    else rowCells ++ sheetLoop to_gen cols rowsLeft (r + 1) count2

/-- All `(row, col, count)` cells actually visited by the drawing loops. -/
def sheetCells (to_gen cols rows : ℕ) : List (ℕ × ℕ × ℕ) :=
  sheetLoop to_gen cols rows 0 0

/-- `x = margin + col * label_w_pt` (line 405). -/
def cellX (margin label_w_pt : ℚ) (col : ℕ) : ℚ :=
  margin + (col : ℚ) * label_w_pt

/-- `y = page_h_pt - margin - label_h_pt - r * label_h_pt` (line 406). -/
def cellY (page_h_pt margin label_h_pt : ℚ) (r : ℕ) : ℚ :=
  page_h_pt - margin - label_h_pt - (r : ℚ) * label_h_pt

/-- The sequence of templates actually drawn by `generate_label` for a grid
of `cols × rows` cells: the sheet loop runs to
`to_generate = min(len(desired), max_labels_per_page)` (line 193) and cell
number `count` draws `desired[count]` (line 407). -/
def drawnLabels (templates : List TemplateItem) (copies cols rows : ℕ) :
    List TemplateItem :=
  (sheetCells (min (desired templates copies).length (cols * rows)) cols rows).map
    (fun cell => (desired templates copies).getD cell.2.2 {})

/-- Externally observable side effects of one `generate_label` call. -/
inductive Effect where
  | readLogo
  | createCanvas
  | drawOp (op : DrawOp)
  | savePdf
deriving DecidableEq, Repr

/-- How a `generate_label` call fails: `httpError` is a raised
`HTTPException` (re-raised untouched, line 415-416); `internalError` is any
other exception, answered as a generic 500 JSON body (lines 417-420). -/
inductive GenError where
  | httpError (status : ℕ) (detail : String)
  | internalError (msg : String)
deriving DecidableEq, Repr

/-- The `generate_label` endpoint body (lines 166-420): the effect trace
performed before returning, together with the outcome.  The empty-template
check (line 169) precedes every effect; colour parsing (lines 197-210)
precedes the logo read (line 240), canvas creation (line 243), drawing and
saving (line 412). -/
def generate_label (env : Env) (req : GenerateRequest) :
    List Effect × Except GenError Unit :=
  if req.templates.isEmpty then
    ([], .error (.httpError 400
      "templates list is required and must contain at least one item"))
  else
    let label_w_pt := mm_to_pt req.labelWidth
    let label_h_pt := mm_to_pt req.labelHeight
    let radius_pt := mm_to_pt req.borderRadius
    let margin := mm_to_pt 6
    let cols := (gridCols A4_w margin label_w_pt).toNat
    let rows := (gridRows A4_h margin label_h_pt).toNat
    let max_labels := cols * rows
    let des := desired req.templates req.copies
    let to_generate := min des.length max_labels
    match parse_colors req.style with
    | .error e => ([], .error (.internalError e))
    | .ok (gold, dark, _border_rgb) =>
      -- border_rgb (line 204) is computed but never used by the drawing code
      let logoEff := if env.logoExists then [Effect.readLogo] else []
      let cells := sheetLoop to_generate cols rows 0 0
      let drawEff := (cells.map (fun cell =>
        (draw_label env req gold dark label_w_pt label_h_pt radius_pt
          (cellX margin label_w_pt cell.2.1)
          (cellY A4_h margin label_h_pt cell.1)
          (des.getD cell.2.2 {})).map Effect.drawOp)).flatten
      (logoEff ++ [Effect.createCanvas] ++ drawEff ++ [Effect.savePdf], .ok ())

/-- A4 width in millimetres as computed by the `width_fits_a4` validator
(line 126): `A4[0] / MM_TO_PT`. -/
def page_w_mm : ℚ := A4_w / MM_TO_PT

/-- A4 height in millimetres as computed by the `height_fits_a4` validator
(line 135). -/
def page_h_mm : ℚ := A4_h / MM_TO_PT

/-- The pydantic validators run on one template: `price` then
`multiplier`. -/
def validate_template (t : TemplateItem) : Except String TemplateItem := do
  let _ ← price_must_be_digits t.price
  let _ ← multiplier_must_be_digits t.multiplier
  pure t

/-- Request-level pydantic validation of `GenerateRequest`: the
`copies` bound (`Field(1, ge=1, le=35)`, line 101), `width_fits_a4`
(lines 122-129), `height_fits_a4` (lines 131-138) and the per-template
field validators.  `StyleSettings` declares no validators, so `style` is
accepted unchecked. -/
def validate_request (req : GenerateRequest) : Except String GenerateRequest := do
  if req.copies < 1 ∨ 35 < req.copies then
    throw "copies must be between 1 and 35"
  else if page_w_mm < req.labelWidth then
    throw "label width must be <= page width"
  else if page_h_mm < req.labelHeight then
    throw "label height must be <= page height"
  else do
    let _ ← req.templates.mapM validate_template
    pure req

/-! ## Shared lemmas -/

/-- `int(x)` is the identity on values that are already integral. -/
lemma pyInt_intCast (z : ℤ) : pyInt (z : ℚ) = z := by
  unfold pyInt
  split <;> simp

/-- `l.getD` over a mapped range. -/
lemma getD_map_range {α : Type} (f : ℕ → α) (n k : ℕ) (d : α) :
    ((List.range n).map f).getD k d = if k < n then f k else d := by
  rcases lt_or_le k n with h | h
  · rw [List.getD_eq_getElem?_getD]
    simp [List.getElem?_map, List.getElem?_range, h]
  · rw [List.getD_eq_getElem?_getD, List.getElem?_eq_none]
    · simp [Nat.not_lt.mpr h]
    · simpa using h

/-- Closed form of the `while` loop that builds `desired`. -/
lemma desiredLoop_eq (t : List TemplateItem) (c : ℕ) :
    ∀ fuel idx acc, c - acc.length = fuel →
      desiredLoop t c idx acc =
        acc ++ (List.range fuel).map (fun j => t.getD ((idx + j) % t.length) {}) := by
  intro fuel
  induction fuel with
  | zero =>
    intro idx acc h
    rw [desiredLoop]
    rw [if_neg (by omega)]
    simp
  | succ n ih =>
    intro idx acc h
    rw [desiredLoop]
    rw [if_pos (by omega)]
    rw [ih (idx + 1) (acc ++ [t.getD (idx % t.length) {}]) (by simp; omega)]
    rw [List.range_succ_eq_map, List.map_cons, List.map_map]
    simp only [Nat.add_zero, List.append_assoc, List.singleton_append]
    congr 1
    congr 1
    apply List.map_congr_left
    intro j hj
    simp only [Function.comp_apply, Nat.succ_eq_add_one]
    have hj2 : idx + 1 + j = idx + (j + 1) := by omega
    rw [hj2]

/-- `desired` realises cyclic repetition: entry `j` is
`templates[j % len(templates)]`. -/
lemma desired_eq (t : List TemplateItem) (c : ℕ) :
    desired t c = (List.range c).map (fun j => t.getD (j % t.length) {}) := by
  rw [desired, desiredLoop_eq t c c 0 [] (by simp)]
  simp

/-- `len(desired) == copies`. -/
lemma desired_length (t : List TemplateItem) (c : ℕ) :
    (desired t c).length = c := by
  rw [desired_eq]
  simp

/-- Closed form of the inner (column) loop. -/
lemma innerLoop_eq (to_gen r : ℕ) :
    ∀ colsLeft col count,
      innerLoop to_gen r colsLeft col count =
        (List.range (min colsLeft (to_gen - count))).map
          (fun j => (r, col + j, count + j)) := by
  intro colsLeft
  induction colsLeft with
  | zero => intro col count; simp [innerLoop]
  | succ n ih =>
    intro col count
    rw [innerLoop]
    by_cases h : count < to_gen
    · rw [if_pos h, ih (col + 1) (count + 1)]
      have hmin : min (n + 1) (to_gen - count) = min n (to_gen - (count + 1)) + 1 := by
        omega
      rw [hmin, List.range_succ_eq_map, List.map_cons, List.map_map]
      simp only [Nat.add_zero]
      congr 1
      apply List.map_congr_left
      intro j hj
      simp only [Function.comp_apply, Nat.succ_eq_add_one]
      have h1 : col + 1 + j = col + (j + 1) := by omega
      have h2 : count + 1 + j = count + (j + 1) := by omega
      rw [h1, h2]
    · rw [if_neg h]
      have : min (n + 1) (to_gen - count) = 0 := by omega
      rw [this]
      simp

/-- Closed form of the row-major sheet loop: the cells visited are exactly
the first `min (rowsLeft*cols) (to_gen - count)` positions, in row-major
order. -/
lemma sheetLoop_eq (to_gen cols : ℕ) (hc : 1 ≤ cols) :
    ∀ rowsLeft r count,
      sheetLoop to_gen cols rowsLeft r count =
        (List.range (min (rowsLeft * cols) (to_gen - count))).map
          (fun k => (r + k / cols, k % cols, count + k)) := by
  intro rowsLeft
  induction rowsLeft with
  | zero => intro r count; simp [sheetLoop]
  | succ n ih =>
    intro r count
    rw [sheetLoop]
    simp only [innerLoop_eq, List.length_map, List.length_range]
    by_cases hbr : to_gen ≤ count + min cols (to_gen - count)
    · rw [if_pos hbr]
      have hN : min ((n + 1) * cols) (to_gen - count) = min cols (to_gen - count) := by
        have : cols ≤ (n + 1) * cols := Nat.le_mul_of_pos_left cols (by omega)
        omega
      rw [hN]
      apply List.map_congr_left
      intro j hj
      rw [List.mem_range] at hj
      have hjc : j < cols := by omega
      rw [Nat.div_eq_of_lt hjc, Nat.mod_eq_of_lt hjc]
      simp
    · rw [if_neg hbr]
      have hm : min cols (to_gen - count) = cols := by omega
      rw [hm] at hbr ⊢
      rw [ih (r + 1) (count + cols)]
      have hN : min ((n + 1) * cols) (to_gen - count) =
          cols + min (n * cols) (to_gen - (count + cols)) := by
        have h1 : (n + 1) * cols = n * cols + cols := by ring
        omega
      rw [hN, List.range_add, List.map_append, List.map_map]
      congr 1
      · apply List.map_congr_left
        intro j hj
        rw [List.mem_range] at hj
        rw [Nat.div_eq_of_lt hj, Nat.mod_eq_of_lt hj]
        simp
      · apply List.map_congr_left
        intro j hj
        simp only [Function.comp_apply]
        have hdiv : (cols + j) / cols = j / cols + 1 := by
          rw [Nat.add_comm cols j, Nat.add_div_right j (by omega)]
        have hmod : (cols + j) % cols = j % cols := Nat.add_mod_left cols j
        rw [hdiv, hmod]
        simp only [Prod.mk.injEq]
        refine ⟨by omega, trivial, by omega⟩

/-- The cells visited by the drawing loops, in visiting order: row-major,
`to_gen`-capped. -/
lemma sheetCells_eq (to_gen cols rows : ℕ) (hc : 1 ≤ cols) :
    sheetCells to_gen cols rows =
      (List.range (min (rows * cols) to_gen)).map
        (fun k => (k / cols, k % cols, k)) := by
  rw [sheetCells, sheetLoop_eq to_gen cols hc rows 0 0]
  simp

/-- `textStrings` distributes over concatenation. -/
lemma textStrings_append (a b : List DrawOp) :
    textStrings (a ++ b) = textStrings a ++ textStrings b :=
  List.filterMap_append a b _

/-- `s.isdigit()` unfolded: non-empty and all digits. -/
lemma pyIsdigit_iff (s : String) :
    pyIsdigit s = true ↔ s ≠ "" ∧ s.toList.all Char.isDigit = true := by
  unfold pyIsdigit
  rw [Bool.and_eq_true, Bool.not_eq_true']
  constructor
  · intro h
    refine ⟨fun hs => ?_, h.2⟩
    rw [hs] at h
    exact absurd h.1 (by decide)
  · intro h
    refine ⟨?_, h.2⟩
    rcases hb : s.isEmpty with _ | _
    · rfl
    · exact absurd ((String.isEmpty_iff s).mp hb) h.1

/-! ## Claims -/

/-- C1: for every non-empty template list `T`, `copies ≥ 1` and grid of
`cols × rows ≥ 1` cells, the sequence of labels actually drawn has length
`min copies (cols*rows)`, and the `i`-th drawn label uses template
`T[i % len(T)]` (cyclic repetition from index 0, order preserved,
duplicates kept). -/
theorem C1_template_cycling (T : List TemplateItem) (copies cols rows : ℕ)
    (hT : T ≠ []) (hcopies : 1 ≤ copies) (hcols : 1 ≤ cols) (hrows : 1 ≤ rows) :
    (drawnLabels T copies cols rows).length = min copies (cols * rows) ∧
    ∀ i, i < min copies (cols * rows) →
      (drawnLabels T copies cols rows).getD i {} = T.getD (i % T.length) {} := by
  have hlen := desired_length T copies
  have hcells := sheetCells_eq (min (desired T copies).length (cols * rows)) cols rows hcols
  have hmin : min (rows * cols) (min (desired T copies).length (cols * rows)) =
      min copies (cols * rows) := by
    rw [hlen, Nat.mul_comm rows cols]
    omega
  constructor
  · rw [drawnLabels, hcells]
    simp [hmin]
  · intro i hi
    rw [drawnLabels, hcells, List.map_map, hmin, getD_map_range, if_pos hi]
    simp only [Function.comp_apply]
    rw [desired_eq, getD_map_range, if_pos (by omega : i < copies)]

/-- Witness for C1 at `T = [tA, tB]`, `copies = 5`, `cols = rows = 2`:
four labels are drawn and the third one (index 2) cycles back to `tA`. -/
theorem C1_template_cycling_witness :
    (drawnLabels [{ perfumeName := "A" }, { perfumeName := "B" }] 5 2 2).length = 4 ∧
    (drawnLabels [{ perfumeName := "A" }, { perfumeName := "B" }] 5 2 2).getD 2 {} =
      { perfumeName := "A" } := by
  have h := C1_template_cycling [{ perfumeName := "A" }, { perfumeName := "B" }] 5 2 2
    (by decide) (by decide) (by decide) (by decide)
  exact ⟨by simpa using h.1, by simpa using h.2 2 (by decide)⟩

/-- C2: for positive page size, cell size and margin with the cell not
exceeding the page, the grid planner computes
`columns = max(1, floor((pageW - margin)/cellW))` (and analogously rows),
both are always at least 1, and `maxCells = columns * rows`. -/
theorem C2_grid_planner (pageW pageH margin cellW cellH : ℚ)
    (hW : 0 < pageW) (hH : 0 < pageH) (hm : 0 < margin) (hw : 0 < cellW)
    (hh : 0 < cellH) (hwW : cellW ≤ pageW) (hhH : cellH ≤ pageH) :
    gridCols pageW margin cellW = max 1 ⌊(pageW - margin) / cellW⌋ ∧
    gridRows pageH margin cellH = max 1 ⌊(pageH - margin) / cellH⌋ ∧
    1 ≤ gridCols pageW margin cellW ∧ 1 ≤ gridRows pageH margin cellH ∧
    maxLabelsPerPage pageW pageH margin cellW cellH =
      gridCols pageW margin cellW * gridRows pageH margin cellH := by
  refine ⟨?_, ?_, ?_, ?_, rfl⟩
  · rw [gridCols, floordiv, pyInt_intCast]
  · rw [gridRows, floordiv, pyInt_intCast]
  · exact le_max_left 1 _
  · exact le_max_left 1 _

/-- Witness for C2 on an A4-like page (595×842 pt) with a 100×120 pt cell
and 17 pt margin: 5 columns and 6 rows, 30 cells. -/
theorem C2_grid_planner_witness :
    gridCols 595 17 100 = 5 ∧ gridRows 842 17 120 = 6 ∧
    1 ≤ gridCols 595 17 100 ∧ maxLabelsPerPage 595 842 17 100 120 = 30 := by
  have h := C2_grid_planner 595 842 17 100 120 (by norm_num) (by norm_num)
    (by norm_num) (by norm_num) (by norm_num) (by norm_num) (by norm_num)
  have hc : gridCols 595 17 100 = 5 := by
    rw [h.1]
    rw [show ((595 : ℚ) - 17) / 100 = 289 / 50 by norm_num]
    norm_num
  have hr : gridRows 842 17 120 = 6 := by
    rw [h.2.1]
    rw [show ((842 : ℚ) - 17) / 120 = 55 / 8 by norm_num]
    norm_num
  refine ⟨hc, hr, h.2.2.1, ?_⟩
  rw [h.2.2.2.2, hc, hr]
  norm_num

/-- C6: cells are filled in row-major order (row outer, column inner): the
`k`-th cell visited is row `k / cols`, column `k % cols`, drawing sequence
entry `k`, at origin `x = margin + col*cellW`,
`y = pageH - margin - cellH - row*cellH`; iteration stops exactly when the
label sequence (`to_gen` entries) is exhausted, so exactly `to_gen` cells
are drawn and no placeholder cell is visited. -/
theorem C6_row_major (cols rows to_gen : ℕ) (margin pageH labelW labelH : ℚ)
    (hc : 1 ≤ cols) (hle : to_gen ≤ cols * rows) :
    (sheetCells to_gen cols rows).length = to_gen ∧
    (∀ k, k < to_gen →
      (sheetCells to_gen cols rows).getD k (0, 0, 0) = (k / cols, k % cols, k)) ∧
    (∀ k, k < to_gen →
      ((sheetCells to_gen cols rows).map
          (fun cell => (cellX margin labelW cell.2.1,
                        cellY pageH margin labelH cell.1))).getD k (0, 0) =
        (margin + ((k % cols : ℕ) : ℚ) * labelW,
         pageH - margin - labelH - ((k / cols : ℕ) : ℚ) * labelH)) := by
  have hcells := sheetCells_eq to_gen cols rows hc
  have hmin : min (rows * cols) to_gen = to_gen := by
    rw [Nat.mul_comm rows cols]; omega
  refine ⟨?_, ?_, ?_⟩
  · rw [hcells, hmin]; simp
  · intro k hk
    rw [hcells, hmin, getD_map_range, if_pos hk]
  · intro k hk
    rw [hcells, hmin, List.map_map, getD_map_range, if_pos hk]
    simp [cellX, cellY]

/-- Witness for C6 with `cols = 2`, `rows = 3`, `to_gen = 5`: five cells,
the fifth at row 2, column 0, sequence index 4, with the stated origin. -/
theorem C6_row_major_witness :
    (sheetCells 5 2 3).length = 5 ∧
    (sheetCells 5 2 3).getD 4 (0, 0, 0) = (2, 0, 4) ∧
    ((sheetCells 5 2 3).map
        (fun cell => (cellX 17 100 cell.2.1, cellY 842 17 120 cell.1))).getD 4 (0, 0) =
      (17, 842 - 17 - 120 - 2 * 120) := by
  have h := C6_row_major 2 3 5 17 842 100 120 (by decide) (by decide)
  refine ⟨h.1, by simpa using h.2.1 4 (by decide), ?_⟩
  have h3 := h.2.2 4 (by decide)
  rw [h3]
  norm_num

/-- C7: a request with an empty template list fails with the 400 validation
error regardless of `copies`, and before any effect: the returned trace is
empty, so no canvas is created, the output PDF is not touched and the
stored logo is never read. -/
theorem C7_empty_templates (env : Env) (req : GenerateRequest)
    (h : req.templates = []) :
    generate_label env req =
      ([], .error (.httpError 400
        "templates list is required and must contain at least one item")) := by
  rw [generate_label, if_pos (by simp [h])]

/-- Witness for C7: a concrete request with no templates and `copies = 7`
is rejected with the 400 error and an empty effect trace. -/
theorem C7_empty_templates_witness :
    generate_label ⟨true, ["Helvetica"], none, none⟩
      { copies := 7, labelWidth := 50, labelHeight := 50, borderRadius := 2,
        templates := [] } =
      ([], .error (.httpError 400
        "templates list is required and must contain at least one item")) :=
  C7_empty_templates ⟨true, ["Helvetica"], none, none⟩
    { copies := 7, labelWidth := 50, labelHeight := 50, borderRadius := 2,
      templates := [] } rfl

/-- C8: a template `price` (resp. `multiplier`) value is accepted exactly
when, after stripping spaces and commas (resp. spaces and the glyphs `×`
and `x`), the remainder is non-empty and consists only of digits; the empty
string is always accepted as an absent value; every other value is a
validation failure. -/
theorem C8_numeric_field_validation (v : String) :
    (accepts (price_must_be_digits v) = true ↔
      v = "" ∨ (cleanPrice v ≠ "" ∧ (cleanPrice v).toList.all Char.isDigit = true)) ∧
    (accepts (multiplier_must_be_digits v) = true ↔
      v = "" ∨ (cleanMultiplier v ≠ "" ∧ (cleanMultiplier v).toList.all Char.isDigit = true)) := by
  constructor
  · unfold price_must_be_digits
    by_cases h : v = ""
    · simp [h, accepts]
    · rw [if_neg h]
      by_cases h2 : pyIsdigit (cleanPrice v) = true
      · rw [if_pos h2]
        rw [pyIsdigit_iff] at h2
        exact ⟨fun _ => Or.inr h2, fun _ => rfl⟩
      · rw [if_neg h2]
        rw [pyIsdigit_iff] at h2
        simp only [accepts, Bool.false_eq_true, false_iff]
        tauto
  · unfold multiplier_must_be_digits
    by_cases h : v = ""
    · simp [h, accepts]
    · rw [if_neg h]
      by_cases h2 : pyIsdigit (cleanMultiplier v) = true
      · rw [if_pos h2]
        rw [pyIsdigit_iff] at h2
        exact ⟨fun _ => Or.inr h2, fun _ => rfl⟩
      · rw [if_neg h2]
        rw [pyIsdigit_iff] at h2
        simp only [accepts, Bool.false_eq_true, false_iff]
        tauto

/-- Witness for C8: `"1,000"` is accepted as a price, `"×3"` as a
multiplier, `""` as both, and `"12a"` is rejected as a price. -/
theorem C8_numeric_field_validation_witness :
    accepts (price_must_be_digits "1,000") = true ∧
    accepts (multiplier_must_be_digits "×3") = true ∧
    accepts (price_must_be_digits "") = true ∧
    accepts (price_must_be_digits "12a") = false := by
  refine ⟨?_, ?_, ?_, ?_⟩
  · exact (C8_numeric_field_validation "1,000").1.mpr (by decide)
  · exact (C8_numeric_field_validation "×3").2.mpr (by decide)
  · exact (C8_numeric_field_validation "").1.mpr (Or.inl rfl)
  · have h := (C8_numeric_field_validation "12a").1
    rcases hacc : accepts (price_must_be_digits "12a") with _ | _
    · rfl
    · exact absurd (h.mp hacc) (by decide)

/-- C9 (implicit): when a template's `shopName`, `price` or `multiplier`
field is empty, the request-level value (`req.shopName`, `req.price`,
`req.quantity`) is rendered in its place (`""` when that is also
absent); a non-empty template field always takes precedence. -/
theorem C9_request_level_fallback (tpl : TemplateItem) (rs rp rq : Option String) :
    (tpl.shopName = "" → shop_text tpl rs = pyOrD rs "") ∧
    (tpl.shopName ≠ "" → shop_text tpl rs = tpl.shopName) ∧
    (tpl.price = "" → price_txt tpl rp = pyOrD rp "") ∧
    (tpl.price ≠ "" → price_txt tpl rp = tpl.price) ∧
    (tpl.multiplier = "" → mult_txt tpl rq = pyOrD rq "") ∧
    (tpl.multiplier ≠ "" → mult_txt tpl rq = tpl.multiplier) := by
  unfold shop_text price_txt mult_txt pyOr
  refine ⟨?_, ?_, ?_, ?_, ?_, ?_⟩ <;> intro h <;> simp [h]

/-- Witness for C9: empty template fields fall back to the request values,
non-empty ones win. -/
theorem C9_request_level_fallback_witness :
    shop_text { price := "5" } (some "Shop A") = "Shop A" ∧
    price_txt { price := "5" } (some "999") = "5" ∧
    mult_txt { price := "5" } (some "4") = "4" := by
  have h := C9_request_level_fallback { price := "5" } (some "Shop A") (some "999") (some "4")
  refine ⟨?_, ?_, ?_⟩
  · rw [h.1 rfl]; rfl
  · exact h.2.2.2.1 (by decide)
  · rw [h.2.2.2.2.1 rfl]; rfl

/-- C4 counterexample: with the decorative font Playfair registered, a
title with no Arabic characters whose caller-requested family
(`Helvetica-Bold`) is registered resolves to `"Playfair"`, not to the
requested family — refuting "otherwise the caller-requested family is used
if registered". -/
theorem C4_font_resolution_counterexample :
    contains_arabic "Oud" = false ∧
    pyOrD (FontSettings.perfumeFont {}) "Helvetica-Bold" = "Helvetica-Bold" ∧
    "Helvetica-Bold" ∈ (⟨false, ["Helvetica-Bold", "Playfair"], some "Playfair", none⟩ : Env).registered ∧
    name_font ⟨false, ["Helvetica-Bold", "Playfair"], some "Playfair", none⟩ {} "Oud" = "Playfair" := by
  decide

/-- C4 amended: the perfume-name font resolution order is (1) Arabic text
with Amiri registered selects Amiri regardless of the requested family;
(2) otherwise a registered Playfair, then a registered Cinzel, overrides
the caller-requested family; (3) only with neither decorative font
registered is the caller-requested family used (falling back to the
built-in `Helvetica-Bold` when it is not registered).  Text without
Arabic characters never selects Amiri via the Arabic fallback. -/
theorem C4_font_resolution_amended (env : Env) (fs : FontSettings) (pname : String) :
    (contains_arabic pname = true → "Amiri" ∈ env.registered →
      name_font env fs pname = "Amiri") ∧
    (¬(contains_arabic pname = true ∧ "Amiri" ∈ env.registered) →
      name_font env fs pname =
        env.playfair.getD (env.cinzel.getD (pyOrD fs.perfumeFont "Helvetica-Bold"))) ∧
    (contains_arabic pname = false → name_font env fs pname = "Amiri" →
      env.playfair = some "Amiri" ∨ env.cinzel = some "Amiri" ∨
        pyOrD fs.perfumeFont "Helvetica-Bold" = "Amiri") ∧
    (env.playfair = none → env.cinzel = none → contains_arabic pname = false →
      pyOrD fs.perfumeFont "Helvetica-Bold" ∈ env.registered →
      effFont env (name_font env fs pname) "Helvetica-Bold" =
        pyOrD fs.perfumeFont "Helvetica-Bold") := by
  refine ⟨?_, ?_, ?_, ?_⟩
  · intro h1 h2
    rw [name_font, if_pos ⟨h1, h2⟩]
  · intro h
    rw [name_font, if_neg h]
    cases env.playfair <;> cases env.cinzel <;> simp
  · intro h1 h2
    rw [name_font, if_neg (by simp [h1])] at h2
    rcases hp : env.playfair with _ | p
    · rcases hcz : env.cinzel with _ | cn
      · rw [hp, hcz] at h2
        simp only at h2
        exact Or.inr (Or.inr h2)
      · rw [hp, hcz] at h2
        simp only at h2
        exact Or.inr (Or.inl (by rw [h2]))
    · rw [hp] at h2
      simp only at h2
      exact Or.inl (by rw [h2])
  · intro hp hcz h1 hreg
    rw [name_font, if_neg (by simp [h1]), hp, hcz, effFont, if_pos hreg]

/-- Witness for C4 amended: an Arabic-only title resolves to Amiri even
though the request asks for Helvetica-Bold; and with no decorative font
registered a Latin title keeps the requested registered family. -/
theorem C4_font_resolution_amended_witness :
    name_font ⟨false, ["Amiri", "Helvetica-Bold"], none, none⟩ {} "عطر" = "Amiri" ∧
    effFont ⟨false, ["Amiri", "Helvetica-Bold"], none, none⟩
      (name_font ⟨false, ["Amiri", "Helvetica-Bold"], none, none⟩ {} "Oud") "Helvetica-Bold" =
      "Helvetica-Bold" := by
  constructor
  · exact (C4_font_resolution_amended ⟨false, ["Amiri", "Helvetica-Bold"], none, none⟩ {}
      "عطر").1 (by decide) (by decide)
  · have h := (C4_font_resolution_amended ⟨false, ["Amiri", "Helvetica-Bold"], none, none⟩ {}
      "Oud").2.2.2 rfl rfl (by decide) (by decide)
    rw [h]
    decide

/-- C3 counterexample: both `"1,000"` and `"×3"` pass validation, yet the
rendered output differs from that of `"1000"` / `"3"`: the drawn strings of
the cell are not equal, refuting "rendering with price 1,000 produces output
identical to rendering with price 1000" (and likewise for the
multiplier). -/
theorem C3_render_sanitization_counterexample :
    accepts (price_must_be_digits "1,000") = true ∧
    accepts (multiplier_must_be_digits "×3") = true ∧
    textStrings (draw_label ⟨false, ["Helvetica", "Helvetica-Bold", "Times-Italic"], none, none⟩
        { labelWidth := 50, labelHeight := 50, borderRadius := 2, templates := [] }
        ⟨1, 0, 0⟩ ⟨0, 0, 0⟩ 100 100 2 0 0 { perfumeName := "Oud", price := "1,000" }) ≠
      textStrings (draw_label ⟨false, ["Helvetica", "Helvetica-Bold", "Times-Italic"], none, none⟩
        { labelWidth := 50, labelHeight := 50, borderRadius := 2, templates := [] }
        ⟨1, 0, 0⟩ ⟨0, 0, 0⟩ 100 100 2 0 0 { perfumeName := "Oud", price := "1000" }) ∧
    textStrings (draw_label ⟨false, ["Helvetica", "Helvetica-Bold", "Times-Italic"], none, none⟩
        { labelWidth := 50, labelHeight := 50, borderRadius := 2, templates := [] }
        ⟨1, 0, 0⟩ ⟨0, 0, 0⟩ 100 100 2 0 0 { perfumeName := "Oud", multiplier := "×3" }) ≠
      textStrings (draw_label ⟨false, ["Helvetica", "Helvetica-Bold", "Times-Italic"], none, none⟩
        { labelWidth := 50, labelHeight := 50, borderRadius := 2, templates := [] }
        ⟨1, 0, 0⟩ ⟨0, 0, 0⟩ 100 100 2 0 0 { perfumeName := "Oud", multiplier := "3" }) := by
  decide

/-- C3 amended: there is no render-time re-sanitization; `draw_label` draws
the price text verbatim as `"Prix(DA):<price_txt> "` and the multiplier
verbatim as `"(×<mult_txt>)"`, so validated inputs that differ by commas or
multiplier glyphs render differently. -/
theorem C3_render_verbatim (env : Env) (req : GenerateRequest) (gold dark : Rgb)
    (w h rad x y : ℚ) (tpl : TemplateItem)
    (hp : price_txt tpl req.price ≠ "") (hm : mult_txt tpl req.quantity ≠ "") :
    ("Prix(DA):" ++ price_txt tpl req.price ++ " ") ∈
      textStrings (draw_label env req gold dark w h rad x y tpl) ∧
    ("(×" ++ mult_txt tpl req.quantity ++ ")") ∈
      textStrings (draw_label env req gold dark w h rad x y tpl) := by
  constructor
  · simp only [draw_label, textStrings_append]
    apply List.mem_append_left
    apply List.mem_append_left
    apply List.mem_append_left
    apply List.mem_append_right
    rw [price_ops, if_pos hp]
    simp [textStrings]
  · simp only [draw_label, textStrings_append]
    apply List.mem_append_left
    apply List.mem_append_left
    apply List.mem_append_right
    rw [qty_ops, if_pos hm]
    simp [textStrings]

/-- Witness for C3 amended: a concrete cell with price `"1,000"` and
multiplier `"×3"` draws the strings `"Prix(DA):1,000 "` and `"(××3)"`
verbatim. -/
theorem C3_render_verbatim_witness :
    ("Prix(DA):1,000 ") ∈
      textStrings (draw_label ⟨false, ["Helvetica"], none, none⟩
        { labelWidth := 50, labelHeight := 50, borderRadius := 2, templates := [] }
        ⟨1, 0, 0⟩ ⟨0, 0, 0⟩ 100 100 2 0 0
        { perfumeName := "Oud", price := "1,000", multiplier := "×3" }) ∧
    ("(××3)") ∈
      textStrings (draw_label ⟨false, ["Helvetica"], none, none⟩
        { labelWidth := 50, labelHeight := 50, borderRadius := 2, templates := [] }
        ⟨1, 0, 0⟩ ⟨0, 0, 0⟩ 100 100 2 0 0
        { perfumeName := "Oud", price := "1,000", multiplier := "×3" }) := by
  have h := C3_render_verbatim ⟨false, ["Helvetica"], none, none⟩
    { labelWidth := 50, labelHeight := 50, borderRadius := 2, templates := [] }
    ⟨1, 0, 0⟩ ⟨0, 0, 0⟩ 100 100 2 0 0
    { perfumeName := "Oud", price := "1,000", multiplier := "×3" }
    (by decide) (by decide)
  exact h

/-- C5 (code bug): the stroked border of every cell is drawn with the
`GOLD` closure variable — the primary colour — for every request; the
`border_rgb` parsed from `borderColor` (line 203) is never used.  At the
failing input (`primaryColor = "#D4AF37"`, `borderColor = "#FF0000"`) the
parsed border colour differs from the primary colour, yet the emitted
border operation carries the primary colour. -/
theorem C5_border_color_bug :
    (∀ (env : Env) (req : GenerateRequest) (gold dark : Rgb) (w h rad x y : ℚ)
        (tpl : TemplateItem),
      (draw_label env req gold dark w h rad x y tpl).getD 1 (DrawOp.image 0 0 0 0) =
        DrawOp.strokeRoundRect (x + 3 + 1) (y + 3 + 1) (w - 6 - 2) (h - 6 - 2)
          rad gold (12 / 10)) ∧
    parse_colors { primaryColor := some "#D4AF37", borderColor := some "#FF0000" } =
      .ok (⟨(212 : ℚ) / 255, (175 : ℚ) / 255, (55 : ℚ) / 255⟩,
           ⟨(8 : ℚ) / 255, (8 : ℚ) / 255, (8 : ℚ) / 255⟩,
           ⟨(255 : ℚ) / 255, (0 : ℚ) / 255, (0 : ℚ) / 255⟩) ∧
    (⟨(212 : ℚ) / 255, (175 : ℚ) / 255, (55 : ℚ) / 255⟩ : Rgb) ≠
      ⟨(255 : ℚ) / 255, (0 : ℚ) / 255, (0 : ℚ) / 255⟩ := by
  refine ⟨fun env req gold dark w h rad x y tpl => rfl, rfl, ?_⟩
  intro hEq
  have h1 : (212 : ℚ) / 255 = 255 / 255 := congrArg Rgb.r hEq
  norm_num at h1

/-- C10 (implicit): `StyleSettings` strings are not validated at request
parsing — the request with `primaryColor = "#FFF"` passes every pydantic
validator — yet hex-to-RGB conversion fails inside the handler (the third
slice `"FFF"[4:6]` is empty) and the request is answered through the
generic 500 path (`internalError`), not as a field-level validation
error; no effect is performed. -/
theorem C10_unvalidated_style_hex :
    validate_request
        { labelWidth := 50, labelHeight := 50, borderRadius := 2,
          templates := [{}], style := { primaryColor := some "#FFF" } } =
      .ok { labelWidth := 50, labelHeight := 50, borderRadius := 2,
            templates := [{}], style := { primaryColor := some "#FFF" } } ∧
    generate_label ⟨false, ["Helvetica"], none, none⟩
        { labelWidth := 50, labelHeight := 50, borderRadius := 2,
          templates := [{}], style := { primaryColor := some "#FFF" } } =
      ([], .error (.internalError "invalid literal for int with base 16: ")) := by
  constructor
  · rw [validate_request]
    rw [if_neg (by decide)]
    rw [if_neg (by norm_num [page_w_mm, A4_w, MM_TO_PT])]
    rw [if_neg (by norm_num [page_h_mm, A4_h, MM_TO_PT])]
    rfl
  · rfl

end Perfume
